import Mathlib

/-!
Verification of the HF Radio Blackout Forecasting API server (server.js).

The server is an Express HTTP facade: each route validates its input,
optionally stages a temporary CSV file, invokes an external Python
predictor process, and relays the parsed JSON result. We embed each
route handler as a pure function of its request data plus the outcome
of the external process, with file-system effects (temporary file
existence after the response) made explicit in the return value.
-/

namespace HFApi

/-- JSON values as produced by JSON.parse and consumed by res.json.
Numbers are modelled as rationals. -/
inductive Json where
  | null : Json
  | bool (b : Bool) : Json
  | num (q : ℚ) : Json
  | str (s : String) : Json
  | arr (elems : List Json) : Json
  | obj (fields : List (String × Json)) : Json

/-- Property lookup on an object field list (first match wins). -/
def lookupField : List (String × Json) → String → Option Json
  | [], _ => none
  | (k, v) :: rest, key => if k == key then some v else lookupField rest key

/-- JavaScript property access v.key: undefined (none) on non-objects. -/
def getField : Json → String → Option Json
  | .obj fields, key => lookupField fields key
  | _, _ => none

/-- JavaScript truthiness of a property-access result (none is undefined). -/
def jsonTruthy : Option Json → Bool
  | none => false
  | some .null => false
  | some (.bool b) => b
  | some (.num q) => decide (q ≠ 0)
  | some (.str s) => decide (s ≠ "")
  | some (.arr _) => true
  | some (.obj _) => true

/-- An HTTP response: status code and JSON body. -/
structure Response where
  status : Nat
  body : Json

/-- The structured error body used by every handler. -/
def errBody (msg : String) : Json :=
  .obj [("success", .bool false), ("error", .str msg)]

/-- Outcome of the spawned child process: either its close event with exit
code and the accumulated stdout and stderr text, or an error event when the
executable could not be started. -/
inductive ProcOutcome where
  | closed (code : Int) (stdout : String) (stderr : String) : ProcOutcome
  | startFailure (msg : String) : ProcOutcome

/-- Settlement of the executePython promise. -/
inductive PyResult where
  | resolved (v : Json) : PyResult
  | rejected (msg : String) : PyResult

/-- executePython, server.js lines 61-95: on close with nonzero code reject
with the captured stderr text, otherwise JSON.parse the captured stdout and
resolve, rejecting on a parse error; on a spawn error reject with a start
failure. JSON.parse itself is a platform function, passed in as a parameter. -/
def executePython (parseJson : String → Except String Json)
    (outcome : ProcOutcome) : PyResult :=
  match outcome with
  | .startFailure m => .rejected ("Failed to start Python: " ++ m)
  | .closed code _stdout stderrText =>
    if code ≠ 0 then .rejected ("Python script failed: " ++ stderrText)
    else
      match parseJson _stdout with
      | .ok v => .resolved v
      | .error e => .rejected ("Failed to parse Python output: " ++ e)

/-- Description of a child_process.spawn call: the command and its
argument list. -/
structure SpawnCall where
  command : String
  args : List String

/-- Fixed path of the predictor entry point (path.join with __dirname is
abstracted to the file name). -/
def PYTHON_SCRIPT : String := "predict.py"

/-- Fixed forecasts directory. -/
def FORECASTS_DIR : String := "forecasts"

/-- The interpreter executable chosen in executePython:
process.env.PYTHON_PATH with fallback to the literal python. -/
def pythonPathOf (envPythonPath : Option String) : String :=
  envPythonPath.getD "python"

/-- The spawn call made by executePython, server.js lines 63-64:
spawn(pythonPath, [PYTHON_SCRIPT, ...args]). -/
def executePythonSpawn (envPythonPath : Option String)
    (args : List String) : SpawnCall :=
  ⟨pythonPathOf envPythonPath, PYTHON_SCRIPT :: args⟩

/-- The spawn call made inline by the GET /model/info handler, server.js
line 399: spawn with the literal python3 on the temporary script. -/
def modelInfoSpawn (tempScript : String) : SpawnCall :=
  ⟨"python3", [tempScript]⟩

/-- Truthiness of the result.success field, as tested by !result.success in
each prediction handler. -/
def resultSuccess (v : Json) : Bool :=
  jsonTruthy (getField v "success")

/-- Shared tail of every prediction handler: a rejected promise falls into
the catch-block response 500 with the error message; a resolved value is
relayed with status 500 when !result.success and 200 otherwise. -/
def relayResult : PyResult → Response
  | .rejected msg => ⟨500, errBody msg⟩
  | .resolved v => if resultSuccess v then ⟨200, v⟩ else ⟨500, v⟩

/-- True exactly on a rejected promise settlement. -/
def isRej : PyResult → Bool
  | .rejected _ => true
  | .resolved _ => false

/-- JavaScript truthiness of a string-or-undefined value, as tested by
!datetime. -/
def strTruthy : Option String → Bool
  | none => false
  | some s => decide (s ≠ "")

/-- Rendering of a JS number for .toString() and template strings. The
exact numeral rendering is never relied on by any claim; we render the
rational as numerator or numerator/denominator. -/
def ratToString (q : ℚ) : String :=
  if q.den = 1 then toString q.num
  else toString q.num ++ "/" ++ toString q.den

/-- Rendering of a possibly-undefined number field. -/
def optRatToString : Option ℚ → String
  | none => "undefined"
  | some q => ratToString q

/-- The out-of-range test flare_probability lt 0 or gt 1 of the single
handler, on a present numeric field (none never reaches this test). -/
def rangeBad : Option ℚ → Bool
  | none => false
  | some q => decide (q < 0) || decide (q > 1)

/-- POST /predict/single, server.js lines 156-190. Request body fields are
modelled as present-or-absent: datetime as Option String, flare_probability
as Option rational (none is undefined). The external invocation is a
parameter from argument list to promise settlement. -/
def predictSingle (exec : List String → PyResult)
    (datetime : Option String) (flare_probability : Option ℚ) : Response :=
  if strTruthy datetime = false ∨ flare_probability = none then
    ⟨400, errBody "Missing required fields: datetime, flare_probability"⟩
  else if rangeBad flare_probability = true then
    ⟨400, errBody "flare_probability must be between 0 and 1"⟩
  else
    relayResult (exec [datetime.getD "", optRatToString flare_probability])

/-- One element of the forecasts array of a batch request. -/
structure Forecast where
  datetime : Option String
  flare_probability : Option ℚ

/-- The validation loop of POST /predict/batch, lines 220-228: walk the
forecasts in order, abort with the 400 message at the first element with a
falsy datetime or an undefined flare_probability, otherwise accumulate the
CSV rows. -/
def buildCsvRows : List Forecast → Except String String
  | [] => .ok ""
  | f :: rest =>
    if strTruthy f.datetime = false ∨ f.flare_probability = none then
      .error "Each forecast must have datetime and flare_probability"
    else
      match buildCsvRows rest with
      | .error e => .error e
      | .ok s =>
          .ok (f.datetime.getD "" ++ "," ++
               optRatToString f.flare_probability ++ "\n" ++ s)

/-- POST /predict/batch, server.js lines 204-254. The request field
forecasts is none when missing or not an array. The second component of
the result records whether the temporary CSV file still exists on disk
after the response: the file is written only after the validation loop
succeeds, unlinked after a resolved invocation, and left behind when the
invocation rejects (the exception skips the unlink and lands in the
catch block). -/
def predictBatch (exec : List String → PyResult) (tempCsvPath : String)
    (forecasts : Option (List Forecast)) : Response × Bool :=
  match forecasts with
  | none => (⟨400, errBody "Missing or invalid forecasts array"⟩, false)
  | some fs =>
    if fs.isEmpty then
      (⟨400, errBody "Missing or invalid forecasts array"⟩, false)
    else
      match buildCsvRows fs with
      | .error e => (⟨400, errBody e⟩, false)
      | .ok _rows =>
        match exec ["batch", tempCsvPath] with
        | .rejected msg => (⟨500, errBody msg⟩, true)
        | .resolved v => (relayResult (.resolved v), false)

/-- POST /predict/upload, server.js lines 263-294. The file parameter is
the multer-assigned path of the uploaded file, none when no file was sent.
The second component records whether the uploaded file still exists on
disk after the response, with the same unlink placement as the batch
handler. -/
def predictUpload (exec : List String → PyResult)
    (file : Option String) : Response × Bool :=
  match file with
  | none => (⟨400, errBody "No file uploaded"⟩, false)
  | some p =>
    match exec ["batch", p] with
    | .rejected msg => (⟨500, errBody msg⟩, true)
    | .resolved v => (relayResult (.resolved v), false)

/-- List-of-characters test: does the list start with the pattern. -/
def startsWithL : List Char → List Char → Bool
  | _, [] => true
  | [], _ :: _ => false
  | a :: as, b :: bs => a == b && startsWithL as bs

/-- List-of-characters substring containment. -/
def hasSubstrL : List Char → List Char → Bool
  | [], sub => sub.isEmpty
  | a :: rest, sub => startsWithL (a :: rest) sub || hasSubstrL rest sub

/-- JavaScript String.prototype.includes on our strings. -/
def includesSub (s sub : String) : Bool :=
  hasSubstrL s.data sub.data

/-- GET /predict/csv/:filename, server.js lines 302-341. The contents of
the forecasts directory are passed as a list of file names; fs.access on
the joined path succeeds exactly when the name is in the directory. -/
def predictCsv (exec : List String → PyResult)
    (dirFiles : List String) (filename : String) : Response :=
  if includesSub filename ".." || includesSub filename "/" then
    ⟨400, errBody "Invalid filename"⟩
  else if !(dirFiles.contains filename) then
    ⟨404, errBody ("File not found: " ++ filename)⟩
  else
    relayResult (exec ["batch", FORECASTS_DIR ++ "/" ++ filename])

/-- GET /forecasts, server.js lines 347-364, on a successful readdir of
the forecasts directory with the given entries. -/
def listForecasts (entries : List String) : Response :=
  ⟨200, .obj [("success", .bool true),
      ("count", .num ((entries.filter (fun f => f.endsWith ".csv")).length : ℚ)),
      ("files", .arr ((entries.filter (fun f => f.endsWith ".csv")).map Json.str))]⟩

/-- Fixture: an external invocation that always rejects (for example the
executable is missing). -/
def execRej : List String → PyResult :=
  fun _ => .rejected "spawn ENOENT"

/-- Fixture: an external invocation resolving with a fixed value. -/
def execOf (v : Json) : List String → PyResult :=
  fun _ => .resolved v

/-- Fixture: the successful predictor output from the spec example. -/
def successObj : Json :=
  .obj [("success", .bool true), ("blackout_probability", .num (21/50)),
        ("risk_level", .str "MODERATE")]

/-- Fixture: a concrete JSON.parse behaviour, accepting only the text of
an empty object. -/
def parseFix : String → Except String Json :=
  fun s => if s = "{}" then .ok (.obj []) else .error "Unexpected token"

/-- Fixture: an external invocation whose process exits with code 1 after
writing the text model load failed to standard error. -/
def execMLF : List String → PyResult :=
  fun _ => executePython parseFix (.closed 1 "" "model load failed")

end HFApi

namespace HFApi

/-! Helper lemmas shared by several claims. -/

theorem relay_resolved_true (v : Json) (h : resultSuccess v = true) :
    relayResult (.resolved v) = ⟨200, v⟩ := by
  simp [relayResult, h]

theorem relay_resolved_false (v : Json) (h : resultSuccess v = false) :
    relayResult (.resolved v) = ⟨500, v⟩ := by
  simp [relayResult, h]

theorem success_bool_true (v : Json)
    (h : getField v "success" = some (.bool true)) :
    resultSuccess v = true := by
  simp [resultSuccess, h, jsonTruthy]

theorem success_bool_false (v : Json)
    (h : getField v "success" = some (.bool false)) :
    resultSuccess v = false := by
  simp [resultSuccess, h, jsonTruthy]

theorem single_dispatch (exec : List String → PyResult) (d : String) (q : ℚ)
    (hd : d ≠ "") (h0 : ¬ q < 0) (h1 : ¬ q > 1) :
    predictSingle exec (some d) (some q)
      = relayResult (exec [d, optRatToString (some q)]) := by
  have ht : strTruthy (some d) = true := by simp [strTruthy, hd]
  have hr : rangeBad (some q) = false := by simp [rangeBad, h0, h1]
  simp [predictSingle, ht, hr, Option.getD]

theorem batch_dispatch (exec : List String → PyResult) (path : String)
    (fs : List Forecast) (hfs : fs ≠ [])
    (hrows : ∃ s, buildCsvRows fs = .ok s) :
    predictBatch exec path (some fs)
      = (relayResult (exec ["batch", path]), isRej (exec ["batch", path])) := by
  obtain ⟨s, hs⟩ := hrows
  have he : fs.isEmpty = false := by
    cases fs with
    | nil => exact absurd rfl hfs
    | cons a l => rfl
  cases hexec : exec ["batch", path] with
  | rejected m => simp [predictBatch, he, hs, hexec, relayResult, isRej]
  | resolved v => simp [predictBatch, he, hs, hexec, isRej]

theorem upload_dispatch (exec : List String → PyResult) (p : String) :
    predictUpload exec (some p)
      = (relayResult (exec ["batch", p]), isRej (exec ["batch", p])) := by
  cases hexec : exec ["batch", p] with
  | rejected m => simp [predictUpload, hexec, relayResult, isRej]
  | resolved v => simp [predictUpload, hexec, isRej]

theorem contains_of_mem (l : List String) (a : String) (h : a ∈ l) :
    l.contains a = true :=
  List.elem_eq_true_of_mem h

theorem not_contains_of_not_mem (l : List String) (a : String) (h : a ∉ l) :
    l.contains a = false := by
  simpa using h

theorem csv_dispatch (exec : List String → PyResult) (dirFiles : List String)
    (fname : String) (h1 : includesSub fname ".." = false)
    (h2 : includesSub fname "/" = false) (hmem : fname ∈ dirFiles) :
    predictCsv exec dirFiles fname
      = relayResult (exec ["batch", FORECASTS_DIR ++ "/" ++ fname]) := by
  have hc : dirFiles.contains fname = true := contains_of_mem dirFiles fname hmem
  unfold predictCsv
  rw [h1, h2, hc]
  simp

theorem buildCsvRows_error (fs : List Forecast) (f : Forecast) (hmem : f ∈ fs)
    (hbad : strTruthy f.datetime = false ∨ f.flare_probability = none) :
    buildCsvRows fs
      = .error "Each forecast must have datetime and flare_probability" := by
  induction fs with
  | nil => cases hmem
  | cons a l ih =>
    by_cases ha : strTruthy a.datetime = false ∨ a.flare_probability = none
    · simp [buildCsvRows, ha]
    · have hfl : f ∈ l := by
        rcases List.mem_cons.mp hmem with h | h
        · subst h; exact absurd hbad ha
        · exact h
      have hrec := ih hfl
      simp [buildCsvRows, ha, hrec]

theorem buildCsvRows_singleton_ok (d : String) (q : ℚ) (hd : d ≠ "") :
    ∃ s, buildCsvRows [⟨some d, some q⟩] = .ok s := by
  have hts : strTruthy (some d) = true := by simp [strTruthy, hd]
  exact ⟨d ++ "," ++ optRatToString (some q) ++ "\n",
    by simp [buildCsvRows, hts]⟩

/-! The ten claims. -/

/-- C5 (confirmed): the external process invocation resolves with the
parsed JSON object exactly when the process exits with code zero and its
accumulated standard output parses as JSON; otherwise it rejects with a
message carrying the captured standard-error text on a nonzero exit, the
parse error on malformed output, or a start failure when the executable
cannot be started. -/
theorem c5_executePython_contract (parseJson : String → Except String Json)
    (outcome : ProcOutcome) :
    (∀ v, executePython parseJson outcome = .resolved v ↔
       ∃ out err, outcome = .closed 0 out err ∧ parseJson out = .ok v)
    ∧ (∀ code out err, outcome = .closed code out err → code ≠ 0 →
       executePython parseJson outcome
         = .rejected ("Python script failed: " ++ err))
    ∧ (∀ out err e, outcome = .closed 0 out err → parseJson out = .error e →
       executePython parseJson outcome
         = .rejected ("Failed to parse Python output: " ++ e))
    ∧ (∀ m, outcome = .startFailure m →
       executePython parseJson outcome
         = .rejected ("Failed to start Python: " ++ m)) := by
  refine ⟨?_, ?_, ?_, ?_⟩
  · intro v
    constructor
    · intro h
      cases outcome with
      | startFailure m => simp [executePython] at h
      | closed code out err =>
        by_cases hc : code = 0
        · subst hc
          cases hp : parseJson out with
          | ok w =>
            refine ⟨out, err, rfl, ?_⟩
            simp [executePython, hp] at h
            rw [hp, h]
          | error e => simp [executePython, hp] at h
        · simp [executePython, hc] at h
    · rintro ⟨out, err, rfl, hp⟩
      simp [executePython, hp]
  · rintro code out err rfl hc
    simp [executePython, hc]
  · rintro out err e rfl hp
    simp [executePython, hp]
  · rintro m rfl
    simp [executePython]

/-- C5 witness: a process exiting with code 1 and stderr text model load
failed makes the invocation reject with that text carried in the message. -/
theorem c5_witness :
    executePython parseFix (.closed 1 "" "model load failed")
      = .rejected ("Python script failed: " ++ "model load failed") :=
  (c5_executePython_contract parseFix (.closed 1 "" "model load failed")).2.1
    1 "" "model load failed" rfl (by decide)

/-- C3 counterexample: with the external process exiting nonzero with
stderr model load failed, the single-prediction response is 500 but its
error field is the prefixed text, not the stderr text exactly. -/
theorem c3_counterexample :
    (predictSingle execMLF (some "2026-02-01 12:00:00") (some 1)).status = 500
    ∧ getField (predictSingle execMLF
        (some "2026-02-01 12:00:00") (some 1)).body "error"
        = some (.str "Python script failed: model load failed")
    ∧ "Python script failed: model load failed" ≠ "model load failed" :=
  ⟨rfl, rfl, by decide⟩

/-- C3 (corrected): when the external process exits nonzero, the single
prediction responds 500 with success false and the captured stderr text
propagated inside the message prefixed by Python script failed. -/
theorem c3_amended (parseJson : String → Except String Json) (code : Int)
    (out err d : String) (q : ℚ) (hc : code ≠ 0) (hd : d ≠ "")
    (h0 : ¬ q < 0) (h1 : ¬ q > 1) :
    predictSingle (fun _ => executePython parseJson (.closed code out err))
      (some d) (some q)
      = ⟨500, errBody ("Python script failed: " ++ err)⟩ := by
  rw [single_dispatch _ _ _ hd h0 h1]
  simp [executePython, hc, relayResult]

/-- C3 witness: the amended statement at the spec example input. -/
theorem c3_witness :
    predictSingle
      (fun _ => executePython parseFix (.closed 1 "" "model load failed"))
      (some "2026-02-01 12:00:00") (some 1)
      = ⟨500, errBody ("Python script failed: " ++ "model load failed")⟩ :=
  c3_amended parseFix 1 "" "model load failed" "2026-02-01 12:00:00" 1
    (by decide) (by decide) (by decide) (by decide)

/-- C1 counterexample: a batch request and an upload request whose
external invocation rejects are answered with status 500, yet the
temporary CSV file, respectively the uploaded file, still exists on disk
after the response: the rejection skips the unlink call. -/
theorem c1_counterexample :
    (predictBatch execRej "uploads/temp_1.csv"
       (some [⟨some "t", some 1⟩])).1.status = 500
    ∧ (predictBatch execRej "uploads/temp_1.csv"
       (some [⟨some "t", some 1⟩])).2 = true
    ∧ (predictUpload execRej (some "uploads/u1")).1.status = 500
    ∧ (predictUpload execRej (some "uploads/u1")).2 = true :=
  ⟨rfl, rfl, rfl, rfl⟩

/-- C1 (corrected): after a batch or upload request the temporary or
uploaded file is gone whenever the external invocation resolves, and the
file remains on disk exactly when the invocation rejects. -/
theorem c1_amended :
    (∀ (exec : List String → PyResult) (path : String)
       (forecasts : Option (List Forecast)),
       ((∃ v, exec ["batch", path] = .resolved v) →
          (predictBatch exec path forecasts).2 = false)
       ∧ ((predictBatch exec path forecasts).2 = true →
          ∃ m, exec ["batch", path] = .rejected m))
    ∧ (∀ (exec : List String → PyResult) (p : String),
       ((∃ v, exec ["batch", p] = .resolved v) →
          (predictUpload exec (some p)).2 = false)
       ∧ ((predictUpload exec (some p)).2 = true →
          ∃ m, exec ["batch", p] = .rejected m)) := by
  constructor
  · intro exec path forecasts
    cases forecasts with
    | none => exact ⟨fun _ => rfl, by simp [predictBatch]⟩
    | some fs =>
      by_cases he : fs.isEmpty = true
      · constructor
        · intro _; simp [predictBatch, he]
        · intro h; simp [predictBatch, he] at h
      · have he' : fs.isEmpty = false := by
          cases hh : fs.isEmpty with
          | true => exact absurd hh he
          | false => rfl
        cases hrows : buildCsvRows fs with
        | error e =>
          constructor
          · intro _; simp [predictBatch, he', hrows]
          · intro h; simp [predictBatch, he', hrows] at h
        | ok s =>
          cases hexec : exec ["batch", path] with
          | rejected m =>
            constructor
            · rintro ⟨v, hv⟩
              cases hv
            · intro _h
              exact ⟨m, rfl⟩
          | resolved v =>
            constructor
            · intro _; simp [predictBatch, he', hrows, hexec]
            · intro h; simp [predictBatch, he', hrows, hexec] at h
  · intro exec p
    cases hexec : exec ["batch", p] with
    | rejected m =>
      constructor
      · rintro ⟨v, hv⟩
        cases hv
      · intro _h
        exact ⟨m, rfl⟩
    | resolved v =>
      constructor
      · intro _; simp [predictUpload, hexec]
      · intro h; simp [predictUpload, hexec] at h

/-- C1 witness: when the invocation resolves, the temporary CSV file and
the uploaded file are both gone after the response. -/
theorem c1_witness :
    (predictBatch (execOf successObj) "uploads/temp_1.csv"
       (some [⟨some "t", some 1⟩])).2 = false
    ∧ (predictUpload (execOf successObj) (some "uploads/u1")).2 = false :=
  ⟨(c1_amended.1 (execOf successObj) "uploads/temp_1.csv"
      (some [⟨some "t", some 1⟩])).1 ⟨successObj, rfl⟩,
   (c1_amended.2 (execOf successObj) "uploads/u1").1 ⟨successObj, rfl⟩⟩

/-- C2 counterexample: a batch whose single element has flare_probability
5, outside the closed unit interval, is not rejected: the external
process is invoked and its successful result is relayed with status 200. -/
theorem c2_counterexample :
    (predictBatch (execOf successObj) "uploads/temp_1.csv"
       (some [⟨some "t", some 5⟩])).1 = ⟨200, successObj⟩
    ∧ ((5:ℚ) < 0 ∨ (5:ℚ) > 1) :=
  ⟨rfl, by decide⟩

/-- C2 (corrected): the batch handler validates every element for field
presence only, aborting with a 400 client error before any external work
when some element has a falsy datetime or an undefined flare_probability;
the unit-interval range of flare_probability is not checked, and a batch
element with any numeric flare_probability value reaches the external
invocation. -/
theorem c2_amended :
    (∀ (exec : List String → PyResult) (path : String) (fs : List Forecast)
       (f : Forecast), f ∈ fs →
       (strTruthy f.datetime = false ∨ f.flare_probability = none) →
       predictBatch exec path (some fs)
         = (⟨400,
             errBody "Each forecast must have datetime and flare_probability"⟩,
            false))
    ∧ (∀ (exec : List String → PyResult) (path d : String) (q : ℚ), d ≠ "" →
       predictBatch exec path (some [⟨some d, some q⟩])
         = (relayResult (exec ["batch", path]),
            isRej (exec ["batch", path]))) := by
  constructor
  · intro exec path fs f hmem hbad
    have hne : fs ≠ [] := by rintro rfl; cases hmem
    have he : fs.isEmpty = false := by
      cases fs with
      | nil => exact absurd rfl hne
      | cons a l => rfl
    have hrows := buildCsvRows_error fs f hmem hbad
    simp [predictBatch, he, hrows]
  · intro exec path d q hd
    exact batch_dispatch exec path [⟨some d, some q⟩] (by simp)
      (buildCsvRows_singleton_ok d q hd)

/-- C2 witness: a batch with a missing datetime is rejected with the 400
presence error, and a batch element with flare_probability 5 reaches the
external invocation. -/
theorem c2_witness :
    predictBatch execRej "uploads/temp_1.csv" (some [⟨none, some 1⟩])
      = (⟨400,
          errBody "Each forecast must have datetime and flare_probability"⟩,
         false)
    ∧ predictBatch execRej "uploads/temp_1.csv" (some [⟨some "t", some 5⟩])
      = (relayResult (execRej ["batch", "uploads/temp_1.csv"]),
         isRej (execRej ["batch", "uploads/temp_1.csv"])) :=
  ⟨c2_amended.1 execRej "uploads/temp_1.csv" [⟨none, some 1⟩]
     ⟨none, some 1⟩ (by simp) (Or.inl rfl),
   c2_amended.2 execRej "uploads/temp_1.csv" "t" 5 (by decide)⟩

/-- C4 (confirmed): for every prediction operation that reaches the
external invocation, a resolved JSON object with success field true is
relayed unchanged with status 200, and a resolved object with success
field false is relayed as the body of a 500 response. -/
theorem c4_relay (v : Json) (d : String) (q : ℚ) (path p fname : String)
    (fs : List Forecast) (dirFiles : List String)
    (hd : d ≠ "") (h0 : ¬ q < 0) (h1 : ¬ q > 1)
    (hfs : fs ≠ []) (hrows : ∃ s, buildCsvRows fs = .ok s)
    (hf1 : includesSub fname ".." = false)
    (hf2 : includesSub fname "/" = false) (hmem : fname ∈ dirFiles) :
    (getField v "success" = some (.bool true) →
       predictSingle (execOf v) (some d) (some q) = ⟨200, v⟩
       ∧ (predictBatch (execOf v) path (some fs)).1 = ⟨200, v⟩
       ∧ (predictUpload (execOf v) (some p)).1 = ⟨200, v⟩
       ∧ predictCsv (execOf v) dirFiles fname = ⟨200, v⟩)
    ∧ (getField v "success" = some (.bool false) →
       predictSingle (execOf v) (some d) (some q) = ⟨500, v⟩
       ∧ (predictBatch (execOf v) path (some fs)).1 = ⟨500, v⟩
       ∧ (predictUpload (execOf v) (some p)).1 = ⟨500, v⟩
       ∧ predictCsv (execOf v) dirFiles fname = ⟨500, v⟩) := by
  have hsingle := single_dispatch (execOf v) d q hd h0 h1
  have hbatch := batch_dispatch (execOf v) path fs hfs hrows
  have hupload := upload_dispatch (execOf v) p
  have hcsv := csv_dispatch (execOf v) dirFiles fname hf1 hf2 hmem
  constructor
  · intro hsucc
    have hrel : relayResult (.resolved v) = ⟨200, v⟩ :=
      relay_resolved_true v (success_bool_true v hsucc)
    refine ⟨hsingle.trans hrel, ?_, ?_, hcsv.trans hrel⟩
    · rw [hbatch]; exact hrel
    · rw [hupload]; exact hrel
  · intro hfail
    have hrel : relayResult (.resolved v) = ⟨500, v⟩ :=
      relay_resolved_false v (success_bool_false v hfail)
    refine ⟨hsingle.trans hrel, ?_, ?_, hcsv.trans hrel⟩
    · rw [hbatch]; exact hrel
    · rw [hupload]; exact hrel

/-- C4 witness: the spec example object with success true is relayed
unchanged with status 200 by the single and the batch operations. -/
theorem c4_witness :
    predictSingle (execOf successObj) (some "t") (some 0) = ⟨200, successObj⟩
    ∧ (predictBatch (execOf successObj) "uploads/temp_1.csv"
        (some [⟨some "t", some 0⟩])).1 = ⟨200, successObj⟩ :=
  have h := c4_relay successObj "t" 0 "uploads/temp_1.csv" "uploads/u1"
    "a.csv" [⟨some "t", some 0⟩] ["a.csv"] (by decide) (by decide) (by decide)
    (by simp) (buildCsvRows_singleton_ok "t" 0 (by decide))
    (by decide) (by decide) (by simp)
  ⟨(h.1 rfl).1, (h.1 rfl).2.1⟩

/-- C6 (confirmed): the named-file batch prediction answers 400 with the
invalid-filename error body whenever the filename contains a parent
directory token or a slash, regardless of the directory contents, and
answers 404 when the filename is clean but no such file exists in the
forecasts directory. -/
theorem c6_csv_filename (exec : List String → PyResult)
    (dirFiles : List String) (filename : String) :
    ((includesSub filename ".." = true ∨ includesSub filename "/" = true) →
       predictCsv exec dirFiles filename = ⟨400, errBody "Invalid filename"⟩)
    ∧ (includesSub filename ".." = false → includesSub filename "/" = false →
       filename ∉ dirFiles →
       predictCsv exec dirFiles filename
         = ⟨404, errBody ("File not found: " ++ filename)⟩) := by
  constructor
  · intro h
    have hb : (includesSub filename ".." || includesSub filename "/") = true := by
      rcases h with h | h <;> simp [h]
    simp [predictCsv, hb]
  · intro h1 h2 hmem
    have hc : dirFiles.contains filename = false :=
      not_contains_of_not_mem dirFiles filename hmem
    unfold predictCsv
    rw [h1, h2, hc]
    simp

/-- C6 witness: a traversal filename is rejected 400 even though a file of
that name exists, and a clean absent filename gets 404. -/
theorem c6_witness :
    predictCsv execRej ["../x"] "../x" = ⟨400, errBody "Invalid filename"⟩
    ∧ predictCsv execRej [] "a.csv"
      = ⟨404, errBody ("File not found: " ++ "a.csv")⟩ :=
  ⟨(c6_csv_filename execRej ["../x"] "../x").1 (Or.inl (by decide)),
   (c6_csv_filename execRej [] "a.csv").2 (by decide) (by decide) (by simp)⟩

/-- C7 counterexample: the model metadata route spawns the fixed command
python3, which differs from the interpreter selected by the environment
variable. -/
theorem c7_counterexample :
    (modelInfoSpawn "uploads/info_1.py").command = "python3"
    ∧ pythonPathOf (some "/venv/bin/python") = "/venv/bin/python"
    ∧ (modelInfoSpawn "uploads/info_1.py").command
        ≠ pythonPathOf (some "/venv/bin/python") :=
  ⟨rfl, rfl, by decide⟩

/-- C7 (corrected): every invocation through executePython uses the
interpreter selected by the environment variable, with fallback python,
and passes the script path first; the model metadata route instead spawns
the fixed command python3, independent of the environment variable. -/
theorem c7_amended (envPythonPath : Option String) (args : List String)
    (tempScript : String) :
    (executePythonSpawn envPythonPath args).command = pythonPathOf envPythonPath
    ∧ (executePythonSpawn envPythonPath args).args = PYTHON_SCRIPT :: args
    ∧ (modelInfoSpawn tempScript).command = "python3" :=
  ⟨rfl, rfl, rfl⟩

/-- C8 (confirmed): a single-prediction request whose flare_probability
lies outside the closed unit interval is answered 400 with the structured
error body, and the error message names the flare_probability field. -/
theorem c8_single_range (exec : List String → PyResult)
    (datetime : Option String) (q : ℚ) (hq : q < 0 ∨ q > 1) :
    ∃ msg, predictSingle exec datetime (some q) = ⟨400, errBody msg⟩
      ∧ includesSub msg "flare_probability" = true := by
  by_cases ht : strTruthy datetime = false
  · refine ⟨"Missing required fields: datetime, flare_probability", ?_,
      by decide⟩
    simp [predictSingle, ht]
  · have ht' : strTruthy datetime = true := by
      cases h : strTruthy datetime with
      | false => exact absurd h ht
      | true => rfl
    refine ⟨"flare_probability must be between 0 and 1", ?_, by decide⟩
    have hr : rangeBad (some q) = true := by
      rcases hq with h | h <;> simp [rangeBad, h]
    simp [predictSingle, ht', hr]

/-- C8 witness: flare_probability 2 is rejected 400 with a message naming
the field. -/
theorem c8_witness :
    ∃ msg, predictSingle execRej (some "t") (some 2) = ⟨400, errBody msg⟩
      ∧ includesSub msg "flare_probability" = true :=
  c8_single_range execRej (some "t") 2 (Or.inr (by decide))

/-- C9 (confirmed): the directory listing returns success true with files
exactly the directory entries whose names end in .csv and count their
number; on an empty directory it returns success true, count 0 and an
empty files array. -/
theorem c9_forecasts_listing (entries : List String) :
    listForecasts entries
      = ⟨200, .obj [("success", .bool true),
          ("count",
           .num ((entries.filter (fun f => f.endsWith ".csv")).length : ℚ)),
          ("files",
           .arr ((entries.filter (fun f => f.endsWith ".csv")).map Json.str))]⟩
    ∧ (∀ s : String, s ∈ entries.filter (fun f => f.endsWith ".csv") ↔
         s ∈ entries ∧ s.endsWith ".csv" = true)
    ∧ listForecasts []
      = ⟨200, .obj [("success", .bool true), ("count", .num 0),
          ("files", .arr [])]⟩ := by
  refine ⟨rfl, ?_, ?_⟩
  · intro s; simp [List.mem_filter]
  · simp [listForecasts]

/-- C10 (confirmed): presence of the two required single-prediction fields
is tested asymmetrically: a datetime equal to the empty string is rejected
400 as missing because the check tests truthiness, while a
flare_probability equal to 0 passes both the strict undefined comparison
and the range check and the request proceeds to the external invocation. -/
theorem c10_presence_asymmetry :
    (∀ (exec : List String → PyResult) (q : ℚ),
       predictSingle exec (some "") (some q)
         = ⟨400, errBody "Missing required fields: datetime, flare_probability"⟩)
    ∧ (∀ (exec : List String → PyResult) (d : String), d ≠ "" →
       predictSingle exec (some d) (some 0)
         = relayResult (exec [d, optRatToString (some 0)])) := by
  constructor
  · intro exec q
    have ht : strTruthy (some "") = false := rfl
    simp [predictSingle, ht]
  · intro exec d hd
    exact single_dispatch exec d 0 hd (by decide) (by decide)

/-- C10 witness: the empty datetime is rejected as missing while a zero
flare_probability proceeds to the external invocation. -/
theorem c10_witness :
    predictSingle execRej (some "") (some 0)
      = ⟨400, errBody "Missing required fields: datetime, flare_probability"⟩
    ∧ predictSingle execRej (some "t") (some 0)
      = relayResult (execRej ["t", optRatToString (some 0)]) :=
  ⟨c10_presence_asymmetry.1 execRej 0,
   c10_presence_asymmetry.2 execRej "t" (by decide)⟩

end HFApi
